import Mathlib

/-!
Verification of the genkit web handlers (`genkit/web/handlers.py`).

The file shallowly embeds the three handlers of the source file:

* `handle_not_found` and `handle_health_check` each send a fixed pair of
  ASGI events; the embedding returns the list of sent events (bodies are
  ASCII byte strings, modelled as Lean strings whose UTF-8 encoding is the
  exact bytes of the Python `bytes` literals).
* `handle_lifespan` (the closure produced by `create_lifespan_handler`)
  runs a `while True` loop over `receive()`; the embedding runs that loop
  over a finite script of inbound message kinds (the `type` field of each
  received dict) and records an observable event trace: user-callback
  invocations and coordinator `send`s.  A user callback is abstracted to
  the observable outcome of each of its invocations, success or a raised
  exception with a stringified message (`Nat → Except String Unit`,
  indexed by invocation count so that successive invocations may behave
  differently, as Python closures can).  The result is the event trace,
  the list of inbound messages actually consumed by `receive()`, and
  whether the loop hit a `return` or is still awaiting the next message
  when the script runs out.  Logger calls are not observable events.
-/

/-- An ASGI lifespan outbound message: its `type` field and the optional
`message` field (present only on the `*.failed` messages). -/
structure OutMsg where
  type : String
  message : Option String
deriving DecidableEq, Repr

/-- The dict literal `{'type': 'lifespan.startup.complete'}`. -/
def startupCompleteMsg : OutMsg := ⟨"lifespan.startup.complete", none⟩

/-- The dict literal `{'type': 'lifespan.startup.failed', 'message': str(e)}`. -/
def startupFailedMsg (e : String) : OutMsg := ⟨"lifespan.startup.failed", some e⟩

/-- The dict literal `{'type': 'lifespan.shutdown.complete'}`. -/
def shutdownCompleteMsg : OutMsg := ⟨"lifespan.shutdown.complete", none⟩

/-- The dict literal `{'type': 'lifespan.shutdown.failed', 'message': str(e)}`. -/
def shutdownFailedMsg (e : String) : OutMsg := ⟨"lifespan.shutdown.failed", some e⟩

/-- Observable events of one run of `handle_lifespan`: an invocation of
the `on_lifespan_begin` callback, an invocation of the `on_lifespan_end`
callback, or an `await send(msg)` performed by the coordinator itself. -/
inductive Event where
  | invokeBegin : Event
  | invokeEnd : Event
  | send : OutMsg → Event
deriving DecidableEq, Repr

/-- How a run of the loop ended: `returned` when one of the `return`
statements executed, `awaiting` when the inbound script was exhausted
while the loop was back at `await receive()`. -/
inductive LoopOutcome where
  | returned : LoopOutcome
  | awaiting : LoopOutcome
deriving DecidableEq, Repr

/-- A user-supplied lifespan callback, abstracted to the observable
outcome of its i-th invocation: normal return, or a raised exception
whose `str(e)` is the given string. -/
abbrev Callback := Nat → Except String Unit

/-- Shallow embedding of the `handle_lifespan` closure built by
`create_lifespan_handler(on_lifespan_begin, on_lifespan_end)`.
Arguments `nb` and `ne` count prior invocations of the begin and end
callbacks (both 0 at the top-level call); the list is the script of
inbound message `type` strings returned by successive `await receive()`
calls.  Returns the event trace, the consumed inbound messages, and the
loop outcome.  The source matches the received `type` against the two
literals and falls through to a default case, embedded here as two
string-equality tests. -/
def handle_lifespan (onBegin onEnd : Option Callback) :
    Nat → Nat → List String → List Event × List String × LoopOutcome
  | _, _, [] => ([], [], LoopOutcome.awaiting)
  | nb, ne, kind :: rest =>
    if kind = "lifespan.startup" then
      match onBegin with
      | some cb =>
        match cb nb with
        | Except.error e =>
            ([Event.invokeBegin, Event.send (startupFailedMsg e)],
             [kind], LoopOutcome.returned)
        | Except.ok _ =>
            let r := handle_lifespan onBegin onEnd (nb + 1) ne rest
            (Event.invokeBegin :: Event.send startupCompleteMsg :: r.1,
             kind :: r.2.1, r.2.2)
      | none =>
          let r := handle_lifespan onBegin onEnd nb ne rest
          (Event.send startupCompleteMsg :: r.1, kind :: r.2.1, r.2.2)
    else if kind = "lifespan.shutdown" then
      match onEnd with
      | some cb =>
        match cb ne with
        | Except.error e =>
            ([Event.invokeEnd, Event.send (shutdownFailedMsg e)],
             [kind], LoopOutcome.returned)
        | Except.ok _ =>
            ([Event.invokeEnd, Event.send shutdownCompleteMsg],
             [kind], LoopOutcome.returned)
      | none => ([], [kind], LoopOutcome.returned)
    else
      ([Event.send startupCompleteMsg], [kind], LoopOutcome.returned)

/-- Number of coordinator `send`s in an event trace. -/
def sendCount : List Event → Nat
  | [] => 0
  | Event.send _ :: tr => sendCount tr + 1
  | Event.invokeBegin :: tr => sendCount tr
  | Event.invokeEnd :: tr => sendCount tr

/-- How many outbound messages the coordinator actually sends for one
inbound message of the given kind: one, except that `lifespan.shutdown`
with no configured on-end callback sends nothing. -/
def expectedSends (onEnd : Option Callback) (kind : String) : Nat :=
  if kind = "lifespan.shutdown" then
    match onEnd with
    | none => 0
    | some _ => 1
  else 1

/-- An ASGI HTTP response event as sent by the two stateless handlers:
`http.response.start` with a status and a header list, or
`http.response.body` with a byte-string body. -/
inductive HttpEvent where
  | responseStart : Nat → List (String × String) → HttpEvent
  | responseBody : String → HttpEvent
deriving DecidableEq, Repr

/-- Shallow embedding of `handle_not_found`: ignores its scope and
receive arguments and sends two fixed events. -/
def handle_not_found {S R : Type} (scope : S) (receive : R) : List HttpEvent :=
  [HttpEvent.responseStart 404 [("content-type", "application/json")],
   HttpEvent.responseBody "\x7b\"error\": \"Not Found\"\x7d"]

/-- Shallow embedding of `handle_health_check`: ignores its scope and
receive arguments and sends two fixed events. -/
def handle_health_check {S R : Type} (scope : S) (receive : R) : List HttpEvent :=
  [HttpEvent.responseStart 200 [("content-type", "application/json")],
   HttpEvent.responseBody "\x7b\"status\": \"ok\"\x7d"]

/-- Claim C3: receiving `lifespan.startup` with no on-begin callback
configured sends exactly one `lifespan.startup.complete` reply and the
loop continues with the rest of the inbound script; in particular, when
that message is the whole script, the loop is back awaiting the next
inbound message. -/
theorem startup_no_callback_one_complete (onEnd : Option Callback)
    (nb ne : Nat) (rest : List String) :
    handle_lifespan none onEnd nb ne ("lifespan.startup" :: rest) =
      (Event.send startupCompleteMsg ::
         (handle_lifespan none onEnd nb ne rest).1,
       "lifespan.startup" :: (handle_lifespan none onEnd nb ne rest).2.1,
       (handle_lifespan none onEnd nb ne rest).2.2) ∧
    (handle_lifespan none onEnd nb ne ["lifespan.startup"]).2.2 =
      LoopOutcome.awaiting := by
  constructor
  · simp [handle_lifespan]
  · simp [handle_lifespan]

/-- Claim C5: receiving `lifespan.shutdown` with no on-end callback
configured sends zero outbound messages (in particular no
`shutdown.complete`) and the loop exits, consuming no further inbound
messages. -/
theorem shutdown_no_callback_silent (onBegin : Option Callback)
    (nb ne : Nat) (rest : List String) :
    handle_lifespan onBegin none nb ne ("lifespan.shutdown" :: rest) =
      ([], ["lifespan.shutdown"], LoopOutcome.returned) := by
  simp [handle_lifespan]

/-- Claim C4: receiving `lifespan.shutdown` with a configured on-end
callback that succeeds produces exactly two events in order, the
callback invocation and then a single `lifespan.shutdown.complete`
send, and the loop exits with no further receives or sends. -/
theorem shutdown_with_callback_complete (onBegin : Option Callback)
    (cb : Callback) (nb ne : Nat) (rest : List String)
    (h : cb ne = Except.ok ()) :
    handle_lifespan onBegin (some cb) nb ne ("lifespan.shutdown" :: rest) =
      ([Event.invokeEnd, Event.send shutdownCompleteMsg],
       ["lifespan.shutdown"], LoopOutcome.returned) := by
  simp [handle_lifespan, h]

/-- Witness for C4 at a concrete always-succeeding callback. -/
theorem shutdown_with_callback_complete_witness :
    handle_lifespan none (some fun _ => Except.ok ()) 0 0 ["lifespan.shutdown"] =
      ([Event.invokeEnd, Event.send shutdownCompleteMsg],
       ["lifespan.shutdown"], LoopOutcome.returned) :=
  shutdown_with_callback_complete none (fun _ => Except.ok ()) 0 0 [] rfl

/-- Claim C6: receiving a message whose kind is neither
`lifespan.startup` nor `lifespan.shutdown` invokes no callback, sends
exactly one `lifespan.startup.complete`, and the loop terminates by a
plain (non-error) return. -/
theorem unrecognized_kind_terminates (onBegin onEnd : Option Callback)
    (nb ne : Nat) (k : String) (rest : List String)
    (h1 : k ≠ "lifespan.startup") (h2 : k ≠ "lifespan.shutdown") :
    handle_lifespan onBegin onEnd nb ne (k :: rest) =
      ([Event.send startupCompleteMsg], [k], LoopOutcome.returned) := by
  simp [handle_lifespan, h1, h2]

/-- Witness for C6 at the concrete unrecognized kind "bogus". -/
theorem unrecognized_kind_terminates_witness :
    handle_lifespan none none 0 0 ["bogus"] =
      ([Event.send startupCompleteMsg], ["bogus"], LoopOutcome.returned) :=
  unrecognized_kind_terminates none none 0 0 "bogus" []
    (by decide) (by decide)

/-- Claim C2: an error raised by the on-begin callback during
`lifespan.startup`, or by the on-end callback during
`lifespan.shutdown`, is caught locally and turned into exactly one
outbound `*.failed` message of the matching phase whose `message` field
is the stringified error, after which the loop returns immediately: no
further receives, sends, or retries. -/
theorem callback_error_fatal (onBegin onEnd : Option Callback)
    (cbB cbE : Callback) (nb ne : Nat) (rest : List String) (e : String) :
    (cbB nb = Except.error e →
      handle_lifespan (some cbB) onEnd nb ne ("lifespan.startup" :: rest) =
        ([Event.invokeBegin, Event.send (startupFailedMsg e)],
         ["lifespan.startup"], LoopOutcome.returned)) ∧
    (cbE ne = Except.error e →
      handle_lifespan onBegin (some cbE) nb ne ("lifespan.shutdown" :: rest) =
        ([Event.invokeEnd, Event.send (shutdownFailedMsg e)],
         ["lifespan.shutdown"], LoopOutcome.returned)) := by
  constructor
  · intro h
    simp [handle_lifespan, h]
  · intro h
    simp [handle_lifespan, h]

/-- Witness for C2: a startup callback raising "boom" yields exactly one
reply, `lifespan.startup.failed` with message "boom", and the loop
exits; a shutdown callback raising "boom" behaves symmetrically. -/
theorem callback_error_fatal_witness :
    (handle_lifespan (some fun _ => Except.error "boom") none 0 0
        ["lifespan.startup"] =
      ([Event.invokeBegin, Event.send (startupFailedMsg "boom")],
       ["lifespan.startup"], LoopOutcome.returned)) ∧
    (handle_lifespan none (some fun _ => Except.error "boom") 0 0
        ["lifespan.shutdown"] =
      ([Event.invokeEnd, Event.send (shutdownFailedMsg "boom")],
       ["lifespan.shutdown"], LoopOutcome.returned)) :=
  ⟨(callback_error_fatal (some fun _ => Except.error "boom") none
      (fun _ => Except.error "boom") (fun _ => Except.error "boom")
      0 0 [] "boom").1 rfl,
   (callback_error_fatal none (some fun _ => Except.error "boom")
      (fun _ => Except.error "boom") (fun _ => Except.error "boom")
      0 0 [] "boom").2 rfl⟩

/-- Claim C10: for a single startup or shutdown inbound message whose
callback raises an error, the trace contains the `*.failed` message of
that phase and never the corresponding `*.complete` message, because the
handler returns immediately after sending the failed message. -/
theorem no_complete_after_failed (onBegin onEnd : Option Callback)
    (cbB cbE : Callback) (nb ne : Nat) (rest : List String) (e : String) :
    (cbB nb = Except.error e →
      Event.send (startupFailedMsg e) ∈
          (handle_lifespan (some cbB) onEnd nb ne
            ("lifespan.startup" :: rest)).1 ∧
      Event.send startupCompleteMsg ∉
          (handle_lifespan (some cbB) onEnd nb ne
            ("lifespan.startup" :: rest)).1) ∧
    (cbE ne = Except.error e →
      Event.send (shutdownFailedMsg e) ∈
          (handle_lifespan onBegin (some cbE) nb ne
            ("lifespan.shutdown" :: rest)).1 ∧
      Event.send shutdownCompleteMsg ∉
          (handle_lifespan onBegin (some cbE) nb ne
            ("lifespan.shutdown" :: rest)).1) := by
  constructor
  · intro h
    simp [handle_lifespan, h, startupCompleteMsg, startupFailedMsg]
  · intro h
    simp [handle_lifespan, h, shutdownCompleteMsg, shutdownFailedMsg]

/-- Witness for C10 at a concrete error "x" in each phase. -/
theorem no_complete_after_failed_witness :
    (Event.send (startupFailedMsg "x") ∈
        (handle_lifespan (some fun _ => Except.error "x") none 0 0
          ["lifespan.startup"]).1 ∧
      Event.send startupCompleteMsg ∉
        (handle_lifespan (some fun _ => Except.error "x") none 0 0
          ["lifespan.startup"]).1) ∧
    (Event.send (shutdownFailedMsg "x") ∈
        (handle_lifespan none (some fun _ => Except.error "x") 0 0
          ["lifespan.shutdown"]).1 ∧
      Event.send shutdownCompleteMsg ∉
        (handle_lifespan none (some fun _ => Except.error "x") 0 0
          ["lifespan.shutdown"]).1) :=
  ⟨(no_complete_after_failed (some fun _ => Except.error "x") none
      (fun _ => Except.error "x") (fun _ => Except.error "x")
      0 0 [] "x").1 rfl,
   (no_complete_after_failed none (some fun _ => Except.error "x")
      (fun _ => Except.error "x") (fun _ => Except.error "x")
      0 0 [] "x").2 rfl⟩

/-- Claim C7: for every scope and receive, `handle_not_found` sends
exactly two events: a response-start with status 404 and the single
header content-type: application/json, then a response-body whose body
is exactly the bytes of the JSON error object. -/
theorem not_found_fixed_response {S R : Type} (scope : S) (receive : R) :
    handle_not_found scope receive =
      [HttpEvent.responseStart 404 [("content-type", "application/json")],
       HttpEvent.responseBody "\x7b\"error\": \"Not Found\"\x7d"] := rfl

/-- Claim C8: for every scope and receive, `handle_health_check` sends
exactly two events: a response-start with status 200 and the single
header content-type: application/json, then a response-body whose body
is exactly the bytes of the JSON status object. -/
theorem health_check_fixed_response {S R : Type} (scope : S) (receive : R) :
    handle_health_check scope receive =
      [HttpEvent.responseStart 200 [("content-type", "application/json")],
       HttpEvent.responseBody "\x7b\"status\": \"ok\"\x7d"] := rfl

/-- Claim C1 counterexample: a `lifespan.shutdown` received with no
on-end callback configured consumes one inbound message but sends zero
outbound messages, so the coordinator does not send exactly one outbound
message per received inbound message (the claim allowed an exception
only for unrecognized kinds, and shutdown is a recognized kind). -/
theorem one_send_per_message_counterexample :
    sendCount (handle_lifespan none none 0 0 ["lifespan.shutdown"]).1 ≠
      (handle_lifespan none none 0 0 ["lifespan.shutdown"]).2.1.length := by
  decide

/-- Claim C1 as amended: over any inbound script, the coordinator sends
exactly one outbound message per consumed inbound message, except that a
`lifespan.shutdown` consumed while no on-end callback is configured
contributes zero sends (the unrecognized-kind exit still sends exactly
one best-effort startup.complete, covered by the count). -/
theorem one_send_per_message_amended (onBegin onEnd : Option Callback)
    (nb ne : Nat) (input : List String) :
    sendCount (handle_lifespan onBegin onEnd nb ne input).1 =
      (((handle_lifespan onBegin onEnd nb ne input).2.1).map
        (expectedSends onEnd)).sum := by
  induction input generalizing nb ne with
  | nil => simp [handle_lifespan, sendCount]
  | cons k rest ih =>
    by_cases h1 : k = "lifespan.startup"
    · subst h1
      cases onBegin with
      | none =>
        simp [handle_lifespan, sendCount, expectedSends, ih]
        omega
      | some cb =>
        cases hcb : cb nb with
        | error e =>
          simp [handle_lifespan, hcb, sendCount, expectedSends]
        | ok u =>
          simp [handle_lifespan, hcb, sendCount, expectedSends, ih]
          omega
    · by_cases h2 : k = "lifespan.shutdown"
      · subst h2
        cases onEnd with
        | none => simp [handle_lifespan, sendCount, expectedSends]
        | some cb =>
          cases hcb : cb ne with
          | error e =>
            simp [handle_lifespan, hcb, sendCount, expectedSends]
          | ok u =>
            simp [handle_lifespan, hcb, sendCount, expectedSends]
      · simp [handle_lifespan, h1, h2, sendCount, expectedSends]

/-- Helper for C9: with no on-begin callback, n consecutive startup
messages produce n startup.complete sends and leave the loop awaiting. -/
theorem replicate_startup_none (onEnd : Option Callback) (ne n nb : Nat) :
    handle_lifespan none onEnd nb ne (List.replicate n "lifespan.startup") =
      (List.replicate n (Event.send startupCompleteMsg),
       List.replicate n "lifespan.startup", LoopOutcome.awaiting) := by
  induction n generalizing nb with
  | zero => simp [handle_lifespan]
  | succ m ih => simp [List.replicate_succ, handle_lifespan, ih]

/-- Helper for C9: with an on-begin callback that succeeds on every
invocation, n consecutive startup messages produce n invocation events
each followed by a startup.complete send, leaving the loop awaiting. -/
theorem replicate_startup_ok (onEnd : Option Callback) (cb : Callback)
    (h : ∀ i, cb i = Except.ok ()) (ne n nb : Nat) :
    handle_lifespan (some cb) onEnd nb ne
        (List.replicate n "lifespan.startup") =
      ((List.replicate n
          [Event.invokeBegin, Event.send startupCompleteMsg]).flatten,
       List.replicate n "lifespan.startup", LoopOutcome.awaiting) := by
  induction n generalizing nb with
  | zero => simp [handle_lifespan]
  | succ m ih => simp [List.replicate_succ, handle_lifespan, h nb, ih]

/-- Claim C9: the handler's reaction to each inbound message does not
depend on prior history: n consecutive `lifespan.startup` messages, with
no on-begin callback or with one succeeding on every invocation, yield n
`lifespan.startup.complete` replies and the loop keeps awaiting after
each, regardless of how many callback invocations already happened. -/
theorem startup_phase_not_enforced (onEnd : Option Callback)
    (nb ne n : Nat) :
    (handle_lifespan none onEnd nb ne
        (List.replicate n "lifespan.startup") =
      (List.replicate n (Event.send startupCompleteMsg),
       List.replicate n "lifespan.startup", LoopOutcome.awaiting)) ∧
    (∀ cb : Callback, (∀ i, cb i = Except.ok ()) →
      handle_lifespan (some cb) onEnd nb ne
          (List.replicate n "lifespan.startup") =
        ((List.replicate n
            [Event.invokeBegin, Event.send startupCompleteMsg]).flatten,
         List.replicate n "lifespan.startup", LoopOutcome.awaiting)) :=
  ⟨replicate_startup_none onEnd ne n nb,
   fun cb h => replicate_startup_ok onEnd cb h ne n nb⟩

/-- Witness for C9 at n = 2 with an always-succeeding callback. -/
theorem startup_phase_not_enforced_witness :
    handle_lifespan (some fun _ => Except.ok ()) none 5 0
        (List.replicate 2 "lifespan.startup") =
      ((List.replicate 2
          [Event.invokeBegin, Event.send startupCompleteMsg]).flatten,
       List.replicate 2 "lifespan.startup", LoopOutcome.awaiting) :=
  (startup_phase_not_enforced none 5 0 2).2
    (fun _ => Except.ok ()) (fun _ => rfl)
